import Mathlib

/-!
Verification of the Omnik inverter binary TCP codec
(`src/omnikinverter/tcp.py`): framing, checksum validation and
structured field extraction.

Embedding conventions:
* Python `bytearray` / `bytes` values are modelled as `List Nat`, each
  element standing for one byte (well-formed buffers have all elements
  `< 256`; theorems carry that hypothesis where it matters).
* Python exceptions are modelled by the `PyErr` type.
  `PyErr.packetInvalid` stands for the library's typed
  `OmnikInverterPacketInvalidError` and carries the exception message;
  `indexError`, `keyError` and `valueError` stand for the untyped
  builtin `IndexError` (pop/index on an empty bytearray), `KeyError`
  (failed dict lookup) and `ValueError` (`ctypes.from_buffer_copy` on a
  too-small buffer).
* Python floats produced by the fixed scale factors `0.1` and `0.01`
  are modelled as exact rationals; the sentinel/scaling structure of the
  decoders is unaffected by this choice.
* `ctypes` `c_char` array fields are kept as raw byte lists, truncated
  at the first NUL byte exactly as `c_char * n` attribute access does;
  the subsequent UTF-8 decode is not modelled.
* Log-only diagnostics (`LOGGER.debug` / `LOGGER.warning`) have no
  observable effect on results and are dropped.
-/

set_option maxRecDepth 200000

namespace OmnikTcp

/-- `MESSAGE_START = 0x68`. -/
def MESSAGE_START : Nat := 0x68

/-- `MESSAGE_END = 0x16`. -/
def MESSAGE_END : Nat := 0x16

/-- `MESSAGE_SEND_SEP = 0x40`. -/
def MESSAGE_SEND_SEP : Nat := 0x40

/-- `MESSAGE_RECV_SEP = 0x41`. -/
def MESSAGE_RECV_SEP : Nat := 0x41

/-- `MESSAGE_TYPE_INFORMATION_REQUEST = 0x30`. -/
def MESSAGE_TYPE_INFORMATION_REQUEST : Nat := 0x30

/-- `MESSAGE_TYPE_INFORMATION_REPLY = 0xB0`. -/
def MESSAGE_TYPE_INFORMATION_REPLY : Nat := 0xB0

/-- `MESSAGE_TYPE_STRING = 0xF0`. -/
def MESSAGE_TYPE_STRING : Nat := 0xF0

/-- `UINT16_MAX = 65535`. -/
def UINT16_MAX : Nat := 65535

/-- `MESSAGE_HEADER_SIZE = 3 + 2 * 4 + 1`: length, separator and type
bytes, the repeated 4-byte serial number, and the trailing checksum. -/
def MESSAGE_HEADER_SIZE : Nat := 3 + 2 * 4 + 1

/-- Python exceptions observable from the codec. -/
inductive PyErr where
  /-- The library's typed `OmnikInverterPacketInvalidError` with its message. -/
  | packetInvalid (msg : String)
  /-- Builtin `IndexError` (pop or index on an empty bytearray). -/
  | indexError
  /-- Builtin `KeyError` (dict lookup miss). -/
  | keyError
  /-- Builtin `ValueError` (`from_buffer_copy` on a too-small buffer). -/
  | valueError
  /-- Builtin `UnicodeDecodeError` (`bytes.decode("utf-8")` on bytes
  that are not valid UTF-8). -/
  | unicodeDecodeError
  deriving Repr, DecidableEq

instance {ε α : Type} [DecidableEq ε] [DecidableEq α] : DecidableEq (Except ε α) :=
  fun a b =>
    match a, b with
    | .error e, .error f =>
      decidable_of_iff (e = f) (by rw [Except.error.injEq])
    | .ok x, .ok y =>
      decidable_of_iff (x = y) (by rw [Except.ok.injEq])
    | .error _, .ok _ => isFalse fun h => Except.noConfusion h
    | .ok _, .error _ => isFalse fun h => Except.noConfusion h

/-- True exactly on the typed `OmnikInverterPacketInvalidError`. -/
def isPacketInvalid : PyErr → Bool
  | .packetInvalid _ => true
  | _ => false

/-- `serial_number.to_bytes(4, "little")`. -/
def toLE4 (n : Nat) : List Nat :=
  [n % 256, n / 256 % 256, n / 256 ^ 2 % 256, n / 256 ^ 3 % 256]

/-- `int.from_bytes(bs, "little")`. -/
def fromLE : List Nat → Nat
  | [] => 0
  | b :: bs => b + 256 * fromLE bs

/-- Big-endian `c_ushort` at byte offset `off` (missing bytes read as 0;
all uses are guarded by a length check). -/
def readU16 (data : List Nat) (off : Nat) : Nat :=
  256 * data.getD off 0 + data.getD (off + 1) 0

/-- Big-endian `c_uint` at byte offset `off`. -/
def readU32 (data : List Nat) (off : Nat) : Nat :=
  256 ^ 3 * data.getD off 0 + 256 ^ 2 * data.getD (off + 1) 0 +
    256 * data.getD (off + 2) 0 + data.getD (off + 3) 0

/-- `ctypes` `c_char * n` attribute access truncates at the first NUL. -/
def cTrunc (bs : List Nat) : List Nat := bs.takeWhile (fun b => b ≠ 0)

/-- Whether a byte sequence is valid UTF-8, exactly as CPython's strict
`bytes.decode("utf-8")` accepts it (RFC 3629: no overlong forms, no
surrogates, nothing above U+10FFFF). -/
def isValidUTF8 : List Nat → Bool
  | [] => true
  | b :: bs =>
    if b ≤ 0x7F then isValidUTF8 bs
    else if 0xC2 ≤ b && b ≤ 0xDF then
      match bs with
      | c1 :: rest => (0x80 ≤ c1 && c1 ≤ 0xBF) && isValidUTF8 rest
      | [] => false
    else if b == 0xE0 then
      match bs with
      | c1 :: c2 :: rest =>
        (0xA0 ≤ c1 && c1 ≤ 0xBF) && (0x80 ≤ c2 && c2 ≤ 0xBF) && isValidUTF8 rest
      | _ => false
    else if (0xE1 ≤ b && b ≤ 0xEC) || b == 0xEE || b == 0xEF then
      match bs with
      | c1 :: c2 :: rest =>
        (0x80 ≤ c1 && c1 ≤ 0xBF) && (0x80 ≤ c2 && c2 ≤ 0xBF) && isValidUTF8 rest
      | _ => false
    else if b == 0xED then
      match bs with
      | c1 :: c2 :: rest =>
        (0x80 ≤ c1 && c1 ≤ 0x9F) && (0x80 ≤ c2 && c2 ≤ 0xBF) && isValidUTF8 rest
      | _ => false
    else if b == 0xF0 then
      match bs with
      | c1 :: c2 :: c3 :: rest =>
        (0x90 ≤ c1 && c1 ≤ 0xBF) && (0x80 ≤ c2 && c2 ≤ 0xBF) &&
          (0x80 ≤ c3 && c3 ≤ 0xBF) && isValidUTF8 rest
      | _ => false
    else if 0xF1 ≤ b && b ≤ 0xF3 then
      match bs with
      | c1 :: c2 :: c3 :: rest =>
        (0x80 ≤ c1 && c1 ≤ 0xBF) && (0x80 ≤ c2 && c2 ≤ 0xBF) &&
          (0x80 ≤ c3 && c3 ≤ 0xBF) && isValidUTF8 rest
      | _ => false
    else if b == 0xF4 then
      match bs with
      | c1 :: c2 :: c3 :: rest =>
        (0x80 ≤ c1 && c1 ≤ 0x8F) && (0x80 ≤ c2 && c2 ≤ 0xBF) &&
          (0x80 ≤ c3 && c3 ≤ 0xBF) && isValidUTF8 rest
      | _ => false
    else false

/-- `bytes.decode("utf-8")`: raises `UnicodeDecodeError` on bytes that
are not valid UTF-8.  The decoded string is represented by its raw
bytes (see the embedding conventions above). -/
def decodeUTF8 (bs : List Nat) : Except PyErr (List Nat) :=
  if isValidUTF8 bs then .ok bs else .error .unicodeDecodeError

/-- Exact message of the checksum failure,
`f"Checksum mismatch (calculated ... got ...)"`. -/
def checksumMismatchMsg (calcd got : Nat) : String :=
  s!"Checksum mismatch (calculated `{calcd}` got `{got}`)"

/-- Exact message of the double-serial failure,
`f"Serial number mismatch in reply ... != ..."`. -/
def serialMismatchMsg (serial0 serial1 : Nat) : String :=
  s!"Serial number mismatch in reply {serial0} != {serial1}"

/-- Exact message of the start-byte failure. -/
def invalidStartMsg (b : Nat) : String :=
  s!"Invalid start byte: {b}"

/-- Exact message of the truncated-frame failure. -/
def shortReadMsg (got want : Nat) : String :=
  s!"Could only read {got} out of {want} expected bytes from TCP stream"

/-- Message of the 0xFF-garbage failure.  The Python message renders the
remaining buffer with `bytearray` repr syntax; the rendering of the byte
list is abstracted to the `List Nat` `ToString`. -/
def ffGarbageMsg (data : List Nat) : String :=
  s!"(Next) message starts with `0xFF` but the remainder is not strictly 0xFF: {data}"

/-- Message of the unknown-message-type failure.  The Python message
renders the type in hex (`:02x`) and the payload with `bytearray` repr
syntax; both renderings are abstracted here. -/
def unknownTypeMsg (message_type : Nat) (message : List Nat) : String :=
  s!"Unknown Omnik message type {message_type} with contents {message}"

/-- Exact message raised when no information reply was seen. -/
def noReplyMsg : String :=
  "None of the messages contained an information reply!"

/-! ## Payload parser (`_AcOutput`, `_TcpData`, `_TcpFirmwareStrings`) -/

/-- `_AcOutput.get_power`: `None if self.power == UINT16_MAX else self.power`. -/
def get_power (power : Nat) : Option Nat :=
  if power = UINT16_MAX then none else some power

/-- `_AcOutput.get_frequency`:
`None if self.frequency == UINT16_MAX else self.frequency * 0.01`. -/
def get_frequency (frequency : Nat) : Option ℚ :=
  if frequency = UINT16_MAX then none else some ((frequency : ℚ) * (1 / 100))

/-- `list_divide_10` applied elementwise inside `_TcpData.parse`:
`None if v == UINT16_MAX else v * 0.1`. -/
def list_divide_10 (v : Nat) : Option ℚ :=
  if v = UINT16_MAX then none else some ((v : ℚ) * (1 / 10))

/-- `int_to_bool` inside `_TcpData.parse`: the dict lookup
`{0: False, 1: True}[num]`, raising `KeyError` on any other value. -/
def int_to_bool (num : Nat) : Except PyErr Bool :=
  if num = 0 then .ok false
  else if num = 1 then .ok true
  else .error .keyError

/-- `temperature_to_float` inside `_TcpData.parse`:
`None if temp == 65326 else temp * 0.1`. -/
def temperature_to_float (temp : Nat) : Option ℚ :=
  if temp = 65326 then none else some ((temp : ℚ) * (1 / 10))

/-- `sizeof(_TcpData)`: 3 + 16 + 2 + 6 + 6 + 6 + 6 + 12 + 2 + 4 + 4 + 2
+ 4 + 2 + 10 = 85 bytes (packed, `_pack_ = 1`). -/
def tcpDataSize : Nat := 85

/-- `sizeof(_TcpFirmwareStrings)`: 16 + 4 + 16 + 4 = 40 bytes. -/
def firmwareStringsSize : Nat := 40

/-- The field mapping produced for an information reply.  `firmware` and
`firmware_slave` are `none` when the corresponding dict keys are absent
(payload too short for `_TcpFirmwareStrings`). -/
structure TcpData where
  serial_number : List Nat
  temperature : Option ℚ
  dc_input_voltage : List (Option ℚ)
  dc_input_current : List (Option ℚ)
  ac_output_current : List (Option ℚ)
  ac_output_voltage : List (Option ℚ)
  ac_output_frequency : List (Option ℚ)
  ac_output_power : List (Option Nat)
  solar_energy_today : ℚ
  solar_energy_total : ℚ
  solar_hours_total : Nat
  inverter_active : Bool
  firmware : Option (List Nat)
  firmware_slave : Option (List Nat)
  deriving Repr, DecidableEq

/-- `_TcpData.parse(data)`: overlay the 85-byte big-endian packed struct
on `data` (`from_buffer_copy` raises `ValueError` when the buffer is
smaller than the struct) and extract the fields listed in
`field_extractors`, applying the scaling and sentinel rules.  The
extractor loop visits `serial_number` first, so its UTF-8 decode (and
any `UnicodeDecodeError`) happens before the `inverter_active` dict
lookup (and any `KeyError`).  Offsets:
padding0 0, serial_number 3, temperature 19, dc_input_voltage 21,
dc_input_current 27, ac_output_current 33, ac_output_voltage 39,
ac_output 45 (three frequency/power pairs), solar_energy_today 57,
solar_energy_total 59, solar_hours_total 63, inverter_active 67,
padding1 69, unknown0 73, padding2 75. -/
def TcpData.parse (data : List Nat) : Except PyErr TcpData :=
  if data.length < tcpDataSize then .error .valueError
  else
    match decodeUTF8 (cTrunc ((data.drop 3).take 16)) with
    | .error e => .error e
    | .ok serial =>
    match int_to_bool (readU16 data 67) with
    | .error e => .error e
    | .ok active =>
      .ok { serial_number := serial
            temperature := temperature_to_float (readU16 data 19)
            dc_input_voltage :=
              [list_divide_10 (readU16 data 21), list_divide_10 (readU16 data 23),
               list_divide_10 (readU16 data 25)]
            dc_input_current :=
              [list_divide_10 (readU16 data 27), list_divide_10 (readU16 data 29),
               list_divide_10 (readU16 data 31)]
            ac_output_current :=
              [list_divide_10 (readU16 data 33), list_divide_10 (readU16 data 35),
               list_divide_10 (readU16 data 37)]
            ac_output_voltage :=
              [list_divide_10 (readU16 data 39), list_divide_10 (readU16 data 41),
               list_divide_10 (readU16 data 43)]
            ac_output_frequency :=
              [get_frequency (readU16 data 45), get_frequency (readU16 data 49),
               get_frequency (readU16 data 53)]
            ac_output_power :=
              [get_power (readU16 data 47), get_power (readU16 data 51),
               get_power (readU16 data 55)]
            solar_energy_today := (readU16 data 57 : ℚ) * (1 / 100)
            solar_energy_total := (readU32 data 59 : ℚ) * (1 / 10)
            solar_hours_total := readU32 data 63
            inverter_active := active
            firmware := none
            firmware_slave := none }

/-- `_TcpFirmwareStrings.parse(data, offset)`: the 16-byte `firmware`
and `firmware_slave` strings at struct offsets 0 and 20, UTF-8 decoded
in that order (`UnicodeDecodeError` on invalid bytes). -/
def TcpFirmwareStrings.parse (data : List Nat) (offset : Nat) :
    Except PyErr (List Nat × List Nat) :=
  if data.length < offset + firmwareStringsSize then .error .valueError
  else
    match decodeUTF8 (cTrunc ((data.drop offset).take 16)) with
    | .error e => .error e
    | .ok fw =>
    match decodeUTF8 (cTrunc ((data.drop (offset + 20)).take 16)) with
    | .error e => .error e
    | .ok fws => .ok (fw, fws)

/-- `_parse_information_reply(data)`: parse the fixed struct, then the
firmware strings only when the payload is long enough. -/
def parse_information_reply (data : List Nat) : Except PyErr TcpData :=
  match TcpData.parse data with
  | .error e => .error e
  | .ok base =>
    if tcpDataSize + firmwareStringsSize ≤ data.length then
      match TcpFirmwareStrings.parse data tcpDataSize with
      | .error e => .error e
      | .ok (fw, fws) => .ok { base with firmware := some fw, firmware_slave := some fws }
    else .ok base

/-! ## Frame codec (`_pack_message`, `_unpack_message`, `_unpack_messages`) -/

/-- `_pack_message(message_type, serial_number, message)`: header
`[len, 0x40, type]`, serial twice little-endian, payload, then the
mod-256 checksum of everything after the start marker, wrapped in
`0x68 .. 0x16`.  `request_data` is the local variable of the same name
holding everything between the start marker and the checksum. -/
def request_data (message_type serial_number : Nat) (message : List Nat) : List Nat :=
  [message.length, MESSAGE_SEND_SEP, message_type] ++
    (toLE4 serial_number ++ (toLE4 serial_number ++ message))

/-- The frame assembled by `_pack_message`. -/
def pack_message (message_type serial_number : Nat) (message : List Nat) : List Nat :=
  MESSAGE_START ::
    (request_data message_type serial_number message ++
      [(request_data message_type serial_number message).sum % 256, MESSAGE_END])

/-- `create_information_request(serial_number)`: an information request
with the fixed sub-command `[0x01, 0x00]`. -/
def create_information_request (serial_number : Nat) : List Nat :=
  pack_message MESSAGE_TYPE_INFORMATION_REQUEST serial_number [0x01, 0x00]

/-- `_unpack_message(message)`: pop the trailing checksum and validate
it, pop length, separator (must be `0x41`) and type, read the repeated
little-endian serial number (must match itself), return
`(message_type, serial0, payload)`.  Pops on an empty buffer raise
`IndexError`. -/
def unpack_message (message : List Nat) : Except PyErr (Nat × Nat × List Nat) :=
  match message.getLast? with
  | none => .error .indexError
  | some message_checksum =>
    if message_checksum ≠ message.dropLast.sum % 256 then
      .error (.packetInvalid
        (checksumMismatchMsg (message.dropLast.sum % 256) message_checksum))
    else
      match message.dropLast with
      | [] => .error .indexError
      | _length :: rest1 =>
        match rest1 with
        | [] => .error .indexError
        | sep :: rest2 =>
          if sep ≠ MESSAGE_RECV_SEP then
            .error (.packetInvalid "Invalid receiver separator")
          else
            match rest2 with
            | [] => .error .indexError
            | message_type :: rest3 =>
              if fromLE (rest3.take 4) ≠ fromLE ((rest3.drop 4).take 4) then
                .error (.packetInvalid
                  (serialMismatchMsg (fromLE (rest3.take 4)) (fromLE ((rest3.drop 4).take 4))))
              else
                .ok (message_type, fromLE (rest3.take 4), rest3.drop 8)

/-- The `parse_messages` loop body for one yielded message: dispatch on
the message type — parse an information reply (overwriting any earlier
one), tolerate a string message, fail on anything else.  The string
branch logs `message.decode("utf8").strip()`: the decode is an eagerly
evaluated call argument, so a non-UTF-8 string payload raises
`UnicodeDecodeError` even though the log line itself has no effect. -/
def processMessage (info : Option TcpData) (message_type : Nat) (message : List Nat) :
    Except PyErr (Option TcpData) :=
  if message_type = MESSAGE_TYPE_INFORMATION_REPLY then
    match parse_information_reply message with
    | .error e => .error e
    | .ok r => .ok (some r)
  else if message_type = MESSAGE_TYPE_STRING then
    match decodeUTF8 message with
    | .error e => .error e
    | .ok _ => .ok info
  else .error (.packetInvalid (unknownTypeMsg message_type message))

/-- One iteration of the `_unpack_messages` stream interleaved with the
`parse_messages` consumer, after the start byte has been popped:
handle the 0xFF trailer, validate the start byte, slice the frame using
the declared length byte (`data[0]` raises `IndexError` on an empty
buffer), unpack it, process the yielded message, then strip and check
the end marker (`pop(0)` raises `IndexError` on an empty buffer).
Returns `none` for a clean end of stream, or the updated reply and the
remaining buffer. -/
def frameStep (info : Option TcpData) (message_start : Nat) (data : List Nat) :
    Except PyErr (Option (Option TcpData × List Nat)) :=
  if message_start = 0xFF then
    if data.all (fun d => d == 0xFF) then .ok none
    else .error (.packetInvalid (ffGarbageMsg data))
  else if message_start ≠ MESSAGE_START then
    .error (.packetInvalid (invalidStartMsg message_start))
  else
    match data.head? with
    | none => .error .indexError
    | some l =>
      if (data.take (l + MESSAGE_HEADER_SIZE)).length ≠ l + MESSAGE_HEADER_SIZE then
        .error (.packetInvalid
          (shortReadMsg (data.take (l + MESSAGE_HEADER_SIZE)).length (l + MESSAGE_HEADER_SIZE)))
      else
        match unpack_message (data.take (l + MESSAGE_HEADER_SIZE)) with
        | .error e => .error e
        | .ok (message_type, _reply_serial, payload) =>
          match processMessage info message_type payload with
          | .error e => .error e
          | .ok info' =>
            match (data.drop (l + MESSAGE_HEADER_SIZE)).head? with
            | none => .error .indexError
            | some endByte =>
              if endByte ≠ MESSAGE_END then .error (.packetInvalid "Invalid end byte")
              else .ok (some (info', (data.drop (l + MESSAGE_HEADER_SIZE)).tail))

/-- After the stream is exhausted: fail unless an information reply was
seen. -/
def finishInfo : Option TcpData → Except PyErr TcpData
  | none => .error (.packetInvalid noReplyMsg)
  | some i => .ok i

/-- The `parse_messages` driver loop over the `_unpack_messages`
stream.  The fuel argument only serves to make the recursion
structural; `parse_messages` supplies `data.length`, which always
suffices because every frame consumes at least 13 bytes of the buffer,
so the fuel-exhaustion branch is unreachable. -/
def parseLoop : Nat → List Nat → Option TcpData → Except PyErr TcpData
  | _, [], info => finishInfo info
  | 0, _ :: _, _ => .error .indexError
  | fuel + 1, message_start :: data, info =>
    match frameStep info message_start data with
    | .error e => .error e
    | .ok none => finishInfo info
    | .ok (some (info', rest)) => parseLoop fuel rest info'

/-- `parse_messages(serial_number, data)`.  The `serial_number`
argument is only ever used in a log line when the reply's serial number
differs from it (a non-fatal diagnostic), so it does not influence the
result. -/
def parse_messages (_serial_number : Nat) (data : List Nat) : Except PyErr TcpData :=
  parseLoop data.length data none

/-! ## Frame constructions used in the statements

A well-formed reply frame, as described by the wire format and consumed
by `_unpack_messages`: start marker, body (declared length byte = the
payload size, receive separator, message type, serial number twice
little-endian, payload), mod-256 checksum of the body, end marker. -/

/-- The body of a reply frame: everything between the start marker and
the checksum byte. -/
def frameBody (message_type serial_number : Nat) (payload : List Nat) : List Nat :=
  payload.length :: MESSAGE_RECV_SEP :: message_type ::
    (toLE4 serial_number ++ (toLE4 serial_number ++ payload))

/-- A reply frame minus start and end markers: exactly the slice that
`_unpack_messages` hands to `_unpack_message`. -/
def frameAfterStart (message_type serial_number : Nat) (payload : List Nat) : List Nat :=
  frameBody message_type serial_number payload ++
    [(frameBody message_type serial_number payload).sum % 256]

/-- A complete well-formed reply frame. -/
def mkReplyFrame (message_type serial_number : Nat) (payload : List Nat) : List Nat :=
  MESSAGE_START :: (frameAfterStart message_type serial_number payload ++ [MESSAGE_END])

/-! ## Basic lemmas -/

theorem toLE4_length (n : Nat) : (toLE4 n).length = 4 := rfl

theorem fromLE_toLE4 {n : Nat} (h : n < 2 ^ 32) : fromLE (toLE4 n) = n := by
  simp only [toLE4, fromLE]
  omega

theorem toLE4_append_take (n : Nat) (l : List Nat) : (toLE4 n ++ l).take 4 = toLE4 n := by
  simp [toLE4]

theorem toLE4_append_drop (n : Nat) (l : List Nat) : (toLE4 n ++ l).drop 4 = l := by
  simp [toLE4]

theorem toLE4_lt (n : Nat) : ∀ b ∈ toLE4 n, b < 256 := by
  simp only [toLE4, List.mem_cons, List.not_mem_nil, or_false]
  rintro b (rfl | rfl | rfl | rfl) <;> exact Nat.mod_lt _ (by norm_num)

theorem frameBody_length (t s : Nat) (p : List Nat) :
    (frameBody t s p).length = p.length + 11 := by
  simp [frameBody, toLE4]

theorem frameAfterStart_length (t s : Nat) (p : List Nat) :
    (frameAfterStart t s p).length = p.length + MESSAGE_HEADER_SIZE := by
  simp [frameAfterStart, frameBody_length, MESSAGE_HEADER_SIZE]

/-- `_unpack_message` accepts a well-formed reply frame and returns its
type, serial number and payload. -/
theorem unpack_message_frame {s : Nat} (hs : s < 2 ^ 32) (t : Nat) (p : List Nat) :
    unpack_message (frameAfterStart t s p) = .ok (t, s, p) := by
  unfold unpack_message frameAfterStart
  rw [List.getLast?_concat, List.dropLast_concat]
  simp only [frameBody]
  rw [if_neg (by simp)]
  rw [if_neg (by simp [MESSAGE_RECV_SEP])]
  rw [toLE4_append_take, toLE4_append_drop, toLE4_append_take, fromLE_toLE4 hs]
  rw [if_neg (by simp)]
  have hdrop : (toLE4 s ++ (toLE4 s ++ p)).drop 8 = p := by simp [toLE4]
  rw [hdrop]

theorem mkReplyFrame_length (t s : Nat) (p : List Nat) :
    (mkReplyFrame t s p).length = p.length + 14 := by
  simp [mkReplyFrame, frameAfterStart_length, MESSAGE_HEADER_SIZE]

/-- One iteration of the stream on a buffer starting with a well-formed
reply frame consumes exactly that frame. -/
theorem frameStep_frame {s : Nat} (hs : s < 2 ^ 32) (t : Nat) (p rest : List Nat)
    (info : Option TcpData) :
    frameStep info MESSAGE_START (frameAfterStart t s p ++ (MESSAGE_END :: rest)) =
      match processMessage info t p with
      | .error e => .error e
      | .ok info' => .ok (some (info', rest)) := by
  have hhead : (frameAfterStart t s p ++ (MESSAGE_END :: rest)).head? = some p.length := by
    simp [frameAfterStart, frameBody]
  have htake : (frameAfterStart t s p ++ (MESSAGE_END :: rest)).take
      (p.length + MESSAGE_HEADER_SIZE) = frameAfterStart t s p := by
    rw [← frameAfterStart_length t s p]
    exact List.take_left _ _
  have hdrop : (frameAfterStart t s p ++ (MESSAGE_END :: rest)).drop
      (p.length + MESSAGE_HEADER_SIZE) = MESSAGE_END :: rest := by
    rw [← frameAfterStart_length t s p]
    exact List.drop_left _ _
  unfold frameStep
  rw [if_neg (by decide), if_neg (by simp), hhead]
  simp only [htake, frameAfterStart_length, ne_eq, not_true_eq_false, if_false,
    unpack_message_frame hs, hdrop, List.head?_cons, List.tail_cons]

/-- A successful stream iteration strictly shrinks the buffer. -/
theorem frameStep_rest_length {info info' : Option TcpData} {start : Nat}
    {data rest : List Nat} (h : frameStep info start data = .ok (some (info', rest))) :
    rest.length < data.length := by
  unfold frameStep at h
  split at h
  · split at h <;> simp_all
  · split at h
    · simp_all
    · split at h
      · simp_all
      · next l heq =>
        split at h
        · simp_all
        · split at h
          · simp_all
          · split at h
            · simp_all
            · split at h
              · simp_all
              · next endByte heq2 =>
                split at h
                · simp_all
                · have hne : data ≠ [] := by
                    intro hnil
                    rw [hnil] at heq
                    simp at heq
                  have hrem : (data.drop (l + MESSAGE_HEADER_SIZE)).length =
                      data.length - (l + MESSAGE_HEADER_SIZE) := List.length_drop _ _
                  have hne2 : data.drop (l + MESSAGE_HEADER_SIZE) ≠ [] := by
                    intro hnil
                    rw [hnil] at heq2
                    simp at heq2
                  have hlen : 1 ≤ (data.drop (l + MESSAGE_HEADER_SIZE)).length :=
                    List.length_pos.mpr hne2
                  have htail : rest = (data.drop (l + MESSAGE_HEADER_SIZE)).tail := by
                    simp only [Except.ok.injEq, Option.some.injEq, Prod.mk.injEq] at h
                    exact h.2.symm
                  have : rest.length = (data.drop (l + MESSAGE_HEADER_SIZE)).length - 1 := by
                    rw [htail, List.length_tail]
                  simp only [MESSAGE_HEADER_SIZE] at *
                  omega

/-- The fuel argument of `parseLoop` is irrelevant as long as it is at
least the buffer length (each iteration consumes at least one byte). -/
theorem parseLoop_fuel {f₁ : Nat} : ∀ {f₂ : Nat} {data : List Nat} {info : Option TcpData},
    data.length ≤ f₁ → data.length ≤ f₂ → parseLoop f₁ data info = parseLoop f₂ data info := by
  induction f₁ with
  | zero =>
    intro f₂ data info h1 h2
    have hdata : data = [] := List.eq_nil_of_length_eq_zero (Nat.le_zero.mp h1)
    subst hdata
    cases f₂ <;> rfl
  | succ g ih =>
    intro f₂ data info h1 h2
    cases data with
    | nil => cases f₂ <;> rfl
    | cons start data' =>
      cases f₂ with
      | zero => simp at h2
      | succ g₂ =>
        simp only [parseLoop]
        cases hstep : frameStep info start data' with
        | error e => rfl
        | ok o =>
          cases o with
          | none => rfl
          | some pr =>
            obtain ⟨i', rest⟩ := pr
            have hlt : rest.length < data'.length := frameStep_rest_length hstep
            simp only [List.length_cons] at h1 h2
            exact ih (by omega) (by omega)

/-- Consuming one well-formed reply frame from the front of the buffer:
the loop processes its message and continues on the rest. -/
theorem parseLoop_frame {s : Nat} (hs : s < 2 ^ 32) {fuel : Nat} (t : Nat)
    (p rest : List Nat) (info : Option TcpData) (hfuel : rest.length < fuel) :
    parseLoop fuel (mkReplyFrame t s p ++ rest) info =
      match processMessage info t p with
      | .error e => .error e
      | .ok info' => parseLoop rest.length rest info' := by
  cases fuel with
  | zero => omega
  | succ g =>
    have hbuf : mkReplyFrame t s p ++ rest =
        MESSAGE_START :: (frameAfterStart t s p ++ (MESSAGE_END :: rest)) := by
      simp [mkReplyFrame]
    rw [hbuf]
    simp only [parseLoop]
    rw [frameStep_frame hs]
    cases hp : processMessage info t p with
    | error e => rfl
    | ok i' => exact parseLoop_fuel (by omega) (by omega)

/-! ## List helpers -/

theorem getD_append_length (l₁ l₂ : List Nat) (d : Nat) :
    (l₁ ++ l₂).getD l₁.length d = l₂.getD 0 d := by
  induction l₁ with
  | nil => rfl
  | cons a t ih => simpa using ih

theorem getD_mem (l : List Nat) (i d : Nat) (h : i < l.length) : l.getD i d ∈ l := by
  induction l generalizing i with
  | nil => simp at h
  | cons a t ih =>
    cases i with
    | zero => simp [List.getD]
    | succ j =>
      simp only [List.length_cons] at h
      exact List.mem_cons_of_mem _ (ih j (by omega))

theorem sum_set_add (l : List Nat) (i b : Nat) (h : i < l.length) :
    (l.set i b).sum + l.getD i 0 = l.sum + b := by
  induction l generalizing i with
  | nil => simp at h
  | cons a t ih =>
    cases i with
    | zero => simp [List.getD]; omega
    | succ j =>
      simp only [List.length_cons] at h
      have := ih j (by omega)
      simp only [List.set, List.sum_cons, List.getD, List.getElem?_cons_succ,
        List.get?_cons_succ] at *
      omega

/-! ## Claim theorems -/

/-- Claim C1: in every packed frame, the embedded checksum byte (the
second-to-last byte) equals the mod-256 sum of all bytes between the
start marker and the checksum byte; and for every valid frame body,
changing any single body byte to a different byte value makes
`_unpack_message`'s checksum validation fail with the checksum-mismatch
error. -/
theorem claim_C1 :
    (∀ t s m, (pack_message t s m).getD ((pack_message t s m).length - 2) 0 =
      (((pack_message t s m).drop 1).take ((pack_message t s m).length - 3)).sum % 256) ∧
    (∀ (body : List Nat) (i b' : Nat), (∀ x ∈ body, x < 256) → i < body.length →
      b' < 256 → b' ≠ body.getD i 0 →
      unpack_message (body.set i b' ++ [body.sum % 256]) =
        .error (.packetInvalid
          (checksumMismatchMsg ((body.set i b').sum % 256) (body.sum % 256)))) := by
  constructor
  · intro t s m
    have hrd : (request_data t s m).length = m.length + 11 := by
      simp [request_data, toLE4]
    have hlen : (pack_message t s m).length = m.length + 14 := by
      simp [pack_message, hrd]
    rw [hlen]
    have h2 : m.length + 14 - 2 = (request_data t s m).length + 1 := by omega
    have h3 : m.length + 14 - 3 = (request_data t s m).length := by omega
    rw [h2, h3]
    show (request_data t s m ++
        [(request_data t s m).sum % 256, MESSAGE_END]).getD (request_data t s m).length 0 =
      ((request_data t s m ++
        [(request_data t s m).sum % 256, MESSAGE_END]).take (request_data t s m).length).sum % 256
    rw [getD_append_length, List.take_left]
    rfl
  · intro body i b' h256 hi hb' hne
    have hsum : (body.set i b').sum + body.getD i 0 = body.sum + b' :=
      sum_set_add body i b' hi
    have hmod : (body.set i b').sum % 256 ≠ body.sum % 256 := by
      intro heq
      have h1 : (body.set i b').sum ≡ body.sum [MOD 256] := heq
      have h2 : (body.set i b').sum + body.getD i 0 ≡
          body.sum + body.getD i 0 [MOD 256] := h1.add_right _
      rw [hsum] at h2
      have h3 : b' ≡ body.getD i 0 [MOD 256] :=
        (Nat.ModEq.add_left_cancel' body.sum) h2
      have ha : body.getD i 0 < 256 := h256 _ (getD_mem body i 0 hi)
      have : b' = body.getD i 0 := by
        have := h3
        unfold Nat.ModEq at this
        rwa [Nat.mod_eq_of_lt hb', Nat.mod_eq_of_lt ha] at this
      exact hne this
    simp only [unpack_message, List.getLast?_concat, List.dropLast_concat]
    rw [if_pos (Ne.symm hmod)]

/-- Witness for C1: a concrete body with its first byte changed from 0
to 5 fails checksum validation. -/
theorem claim_C1_witness :
    unpack_message (([0, 65, 240, 1, 0, 0, 0, 1, 0, 0, 0].set 0 5) ++
        [[0, 65, 240, 1, 0, 0, 0, 1, 0, 0, 0].sum % 256]) =
      .error (.packetInvalid
        (checksumMismatchMsg (([0, 65, 240, 1, 0, 0, 0, 1, 0, 0, 0].set 0 5).sum % 256)
          ([0, 65, 240, 1, 0, 0, 0, 1, 0, 0, 0].sum % 256))) :=
  claim_C1.2 [0, 65, 240, 1, 0, 0, 0, 1, 0, 0, 0] 0 5 (by decide) (by decide)
    (by decide) (by decide)

/-- The slice of a `create_information_request` frame delimited exactly
as `_unpack_messages` delimits frames: start marker stripped, then
`declared-length-byte + MESSAGE_HEADER_SIZE` bytes. -/
def information_request_slice (s : Nat) : List Nat :=
  ((create_information_request s).drop 1).take
    ((create_information_request s).getD 1 0 + MESSAGE_HEADER_SIZE)

theorem information_request_slice_eq (s : Nat) :
    information_request_slice s =
      request_data MESSAGE_TYPE_INFORMATION_REQUEST s [1, 0] ++
        [(request_data MESSAGE_TYPE_INFORMATION_REQUEST s [1, 0]).sum % 256] := by
  show (request_data MESSAGE_TYPE_INFORMATION_REQUEST s [1, 0] ++
      [(request_data MESSAGE_TYPE_INFORMATION_REQUEST s [1, 0]).sum % 256,
        MESSAGE_END]).take (2 + MESSAGE_HEADER_SIZE) = _
  have h13 : (request_data MESSAGE_TYPE_INFORMATION_REQUEST s [1, 0]).length = 13 := by
    simp [request_data, toLE4]
  have h14 : 2 + MESSAGE_HEADER_SIZE =
      (request_data MESSAGE_TYPE_INFORMATION_REQUEST s [1, 0]).length + 1 := by
    rw [h13]
    decide
  rw [h14, List.take_append]
  rfl

/-- Counterexample to claim C2 as stated: unpacking the request frame
built by `create_information_request(1)` (delimited as the stream
iterator does) does not succeed — it fails on the receiver-separator
check, because requests carry the send separator 0x40 where
`_unpack_message` demands the receive separator 0x41. -/
theorem claim_C2_counterexample :
    unpack_message (information_request_slice 1) =
      .error (.packetInvalid "Invalid receiver separator") := by decide

/-- Claim C2 as amended: for every serial number `s < 2^32`, the frame
built by `create_information_request(s)`, delimited exactly as the
stream iterator does, carries `s` in both little-endian serial-number
copies and passes checksum validation, but `_unpack_message` rejects it
with "Invalid receiver separator" (requests carry the send separator
0x40, not the receive separator 0x41 that `_unpack_message` demands). -/
theorem claim_C2_amended (s : Nat) (hs : s < 2 ^ 32) :
    unpack_message (information_request_slice s) =
      .error (.packetInvalid "Invalid receiver separator") ∧
    (information_request_slice s).getLast? =
      some ((information_request_slice s).dropLast.sum % 256) ∧
    ((information_request_slice s).drop 3).take 4 = toLE4 s ∧
    ((information_request_slice s).drop 7).take 4 = toLE4 s ∧
    fromLE (toLE4 s) = s := by
  have hc := information_request_slice_eq s
  have hform : information_request_slice s =
      [2, MESSAGE_SEND_SEP, MESSAGE_TYPE_INFORMATION_REQUEST] ++
        (toLE4 s ++ (toLE4 s ++ ([1, 0] ++
          [(request_data MESSAGE_TYPE_INFORMATION_REQUEST s [1, 0]).sum % 256]))) := by
    rw [hc]
    simp [request_data, List.append_assoc]
  refine ⟨?_, ?_, ?_, ?_, fromLE_toLE4 hs⟩
  · rw [hc]
    simp only [unpack_message, List.getLast?_concat, List.dropLast_concat]
    rw [if_neg (by simp)]
    simp only [request_data, List.cons_append, List.nil_append]
    rw [if_pos (by decide)]
  · rw [hc, List.getLast?_concat, List.dropLast_concat]
  · rw [hform]
    show (toLE4 s ++ (toLE4 s ++ ([1, 0] ++ [_]))).take 4 = toLE4 s
    rw [toLE4_append_take]
  · rw [hform]
    show (toLE4 s ++ ([1, 0] ++ [_])).take 4 = toLE4 s
    rw [toLE4_append_take]

/-- Witness for the amended C2 at the concrete serial number
987654321. -/
theorem claim_C2_witness :
    987654321 < 2 ^ 32 ∧
    unpack_message (information_request_slice 987654321) =
      .error (.packetInvalid "Invalid receiver separator") ∧
    fromLE (toLE4 987654321) = 987654321 :=
  ⟨by decide, (claim_C2_amended 987654321 (by decide)).1,
    (claim_C2_amended 987654321 (by decide)).2.2.2.2⟩

/-- Claim C3: for every serial number `s < 2^32`,
`create_information_request(s)` is exactly the 16-byte frame
`0x68, 0x02, 0x40, 0x30, s (little-endian, twice), 0x01, 0x00,
checksum-of-the-13-body-bytes, 0x16`; the construction is total (no
error conditions) and the serial encoding is genuinely little-endian
(`fromLE` recovers `s`, every encoded byte is below 256). -/
theorem claim_C3 (s : Nat) (hs : s < 2 ^ 32) :
    create_information_request s =
      [MESSAGE_START, 2, MESSAGE_SEND_SEP, MESSAGE_TYPE_INFORMATION_REQUEST] ++
        (toLE4 s ++ (toLE4 s ++ [1, 0,
          ([2, MESSAGE_SEND_SEP, MESSAGE_TYPE_INFORMATION_REQUEST] ++
            (toLE4 s ++ (toLE4 s ++ [1, 0]))).sum % 256, MESSAGE_END])) ∧
    (create_information_request s).length = 16 ∧
    (∀ b ∈ toLE4 s, b < 256) ∧
    fromLE (toLE4 s) = s := by
  refine ⟨?_, ?_, toLE4_lt s, fromLE_toLE4 hs⟩
  · simp [create_information_request, pack_message, request_data, List.append_assoc]
  · simp [create_information_request, pack_message, request_data, toLE4]

/-- Witness for C3 at the concrete serial number 305419896
(`0x12345678`). -/
theorem claim_C3_witness :
    305419896 < 2 ^ 32 ∧
    create_information_request 305419896 =
      [MESSAGE_START, 2, MESSAGE_SEND_SEP, MESSAGE_TYPE_INFORMATION_REQUEST] ++
        (toLE4 305419896 ++ (toLE4 305419896 ++ [1, 0,
          ([2, MESSAGE_SEND_SEP, MESSAGE_TYPE_INFORMATION_REQUEST] ++
            (toLE4 305419896 ++ (toLE4 305419896 ++ [1, 0]))).sum % 256, MESSAGE_END])) ∧
    (create_information_request 305419896).length = 16 :=
  ⟨by decide, (claim_C3 305419896 (by decide)).1, (claim_C3 305419896 (by decide)).2.1⟩

/-- A 10-byte payload used in the C4 counterexample. -/
def p10 : List Nat := [1, 2, 3, 4, 5, 6, 7, 8, 9, 10]

/-- Counterexample to claim C4 as stated: a valid frame whose declared
length byte is 10 (sliced by the stream as `10 + MESSAGE_HEADER_SIZE`
bytes) yields a 10-byte payload from `_unpack_message`, not a
`10 - 8 = 2`-byte payload. -/
theorem claim_C4_counterexample :
    unpack_message (frameAfterStart MESSAGE_TYPE_STRING 1 p10) =
      .ok (MESSAGE_TYPE_STRING, 1, p10) ∧
    (frameAfterStart MESSAGE_TYPE_STRING 1 p10).head? = some 10 ∧
    (frameAfterStart MESSAGE_TYPE_STRING 1 p10).length = 10 + MESSAGE_HEADER_SIZE ∧
    p10.length = 10 ∧
    ¬ p10.length = 10 - 8 := by decide

/-- Claim C4 as amended: in every frame sliced as the stream iterator
slices it (total size = declared length byte + MESSAGE_HEADER_SIZE),
the payload yielded by `_unpack_message` numbers exactly `len` bytes,
where `len` is the declared length byte — not `len - 8`. -/
theorem claim_C4_amended (msg : List Nat) (l t s : Nat) (p : List Nat)
    (_hhead : msg.head? = some l) (hlen : msg.length = l + MESSAGE_HEADER_SIZE)
    (hok : unpack_message msg = .ok (t, s, p)) : p.length = l := by
  unfold unpack_message at hok
  split at hok
  · simp at hok
  · split at hok
    · simp at hok
    · rcases hdrop : msg.dropLast with _ | ⟨L, _ | ⟨S, _ | ⟨T, rest3⟩⟩⟩ <;>
        rw [hdrop] at hok
      · simp at hok
      · simp at hok
      · simp at hok
        split at hok <;> simp at hok
      · simp only [ne_eq] at hok
        split at hok
        · simp at hok
        · split at hok
          · simp at hok
          · simp only [Except.ok.injEq, Prod.mk.injEq] at hok
            have hp : p = rest3.drop 8 := hok.2.2.symm
            have hdl : msg.dropLast.length = msg.length - 1 :=
              List.length_dropLast msg
            have hb' : msg.dropLast.length = rest3.length + 3 := by
              rw [hdrop]
              simp
            have hplen : p.length = rest3.length - 8 := by
              rw [hp, List.length_drop]
            simp only [MESSAGE_HEADER_SIZE] at hlen
            omega

/-- A concrete 85-byte information-reply payload (fixed-field section
only, no firmware strings).  Field raw values: temperature 200,
dc_input_voltage [100, 65535, 30], dc_input_current [0, 0, 0],
ac_output_current [50, 50, 50], ac_output_voltage [65535, 65535,
65535], ac_output (frequency, power) pairs [(500, 1000),
(65535, 65535), (0, 0)], solar_energy_today 300, solar_energy_total 40,
solar_hours_total 77, inverter_active 1. -/
def p85 : List Nat :=
  [0x81, 0x02, 0x01] ++
  [78, 76, 68, 78, 48, 49, 50, 51, 52, 53, 67, 83, 52, 51, 50, 49] ++
  [0, 200] ++
  [0, 100, 255, 255, 0, 30] ++
  [0, 0, 0, 0, 0, 0] ++
  [0, 50, 0, 50, 0, 50] ++
  [255, 255, 255, 255, 255, 255] ++
  [1, 244, 3, 232, 255, 255, 255, 255, 0, 0, 0, 0] ++
  [1, 44] ++
  [0, 0, 0, 40] ++
  [0, 0, 0, 77] ++
  [0, 1] ++
  [0, 0, 0, 0] ++
  [0, 0] ++
  [0, 0, 0, 0, 0, 0, 0, 0, 0, 0]

/-- The field mapping decoded from `p85`. -/
def e85 : TcpData :=
  { serial_number := [78, 76, 68, 78, 48, 49, 50, 51, 52, 53, 67, 83, 52, 51, 50, 49]
    temperature := some 20
    dc_input_voltage := [some 10, none, some 3]
    dc_input_current := [some 0, some 0, some 0]
    ac_output_current := [some 5, some 5, some 5]
    ac_output_voltage := [none, none, none]
    ac_output_frequency := [some 5, none, some 0]
    ac_output_power := [some 1000, none, some 0]
    solar_energy_today := 3
    solar_energy_total := 4
    solar_hours_total := 77
    inverter_active := true
    firmware := none
    firmware_slave := none }

/-- `p85` with the raw `inverter_active` field (offset 67) set to 2,
outside `{0, 1}`. -/
def pBad : List Nat := p85.set 68 2

/-- Witness for the amended C4 at the concrete frame of the
counterexample: the declared length byte 10 matches the 10-byte
payload. -/
theorem claim_C4_witness :
    (frameAfterStart MESSAGE_TYPE_STRING 1 p10).head? = some 10 ∧
    (frameAfterStart MESSAGE_TYPE_STRING 1 p10).length = 10 + MESSAGE_HEADER_SIZE ∧
    p10.length = 10 :=
  ⟨by decide, by decide,
    claim_C4_amended (frameAfterStart MESSAGE_TYPE_STRING 1 p10) 10
      MESSAGE_TYPE_STRING 1 p10 (by decide) (by decide) (by decide)⟩

/-- `TcpData.parse` on a buffer at least `tcpDataSize` long whose
serial-number bytes are valid UTF-8 and whose raw `inverter_active`
value decodes to `b` yields exactly the record built from the field
decoders. -/
theorem TcpData_parse_ok (data : List Nat) (b : Bool) (h85 : tcpDataSize ≤ data.length)
    (hser : isValidUTF8 (cTrunc ((data.drop 3).take 16)) = true)
    (hb : int_to_bool (readU16 data 67) = .ok b) :
    TcpData.parse data =
      .ok { serial_number := cTrunc ((data.drop 3).take 16)
            temperature := temperature_to_float (readU16 data 19)
            dc_input_voltage :=
              [list_divide_10 (readU16 data 21), list_divide_10 (readU16 data 23),
               list_divide_10 (readU16 data 25)]
            dc_input_current :=
              [list_divide_10 (readU16 data 27), list_divide_10 (readU16 data 29),
               list_divide_10 (readU16 data 31)]
            ac_output_current :=
              [list_divide_10 (readU16 data 33), list_divide_10 (readU16 data 35),
               list_divide_10 (readU16 data 37)]
            ac_output_voltage :=
              [list_divide_10 (readU16 data 39), list_divide_10 (readU16 data 41),
               list_divide_10 (readU16 data 43)]
            ac_output_frequency :=
              [get_frequency (readU16 data 45), get_frequency (readU16 data 49),
               get_frequency (readU16 data 53)]
            ac_output_power :=
              [get_power (readU16 data 47), get_power (readU16 data 51),
               get_power (readU16 data 55)]
            solar_energy_today := (readU16 data 57 : ℚ) * (1 / 100)
            solar_energy_total := (readU32 data 59 : ℚ) * (1 / 10)
            solar_hours_total := readU32 data 63
            inverter_active := b
            firmware := none
            firmware_slave := none } := by
  unfold TcpData.parse
  rw [if_neg (by omega), hb]
  simp only [decodeUTF8, hser, if_true]

/-- Claim C5: every u16 field with the 65535 sentinel (`list_divide_10`
for the ×0.1 voltage/current arrays, `get_frequency` ×0.01,
`get_power` unscaled) decodes to `none` exactly at raw value 65535 and
to `raw * scale` otherwise, and `temperature_to_float` decodes to
`none` exactly at raw value 65326 and to `raw * 0.1` otherwise, over
the whole u16 range; and `_TcpData.parse` applies exactly these
decoders to the respective fields. -/
theorem claim_C5 :
    (∀ v : Nat, v ≤ 65535 →
      ((list_divide_10 v = none ↔ v = 65535) ∧
        (v ≠ 65535 → list_divide_10 v = some ((v : ℚ) * (1 / 10))) ∧
        (get_frequency v = none ↔ v = 65535) ∧
        (v ≠ 65535 → get_frequency v = some ((v : ℚ) * (1 / 100))) ∧
        (get_power v = none ↔ v = 65535) ∧
        (v ≠ 65535 → get_power v = some v) ∧
        (temperature_to_float v = none ↔ v = 65326) ∧
        (v ≠ 65326 → temperature_to_float v = some ((v : ℚ) * (1 / 10))))) ∧
    (∀ (data : List Nat) (r : TcpData), TcpData.parse data = .ok r →
      r.temperature = temperature_to_float (readU16 data 19) ∧
      r.dc_input_voltage =
        [list_divide_10 (readU16 data 21), list_divide_10 (readU16 data 23),
         list_divide_10 (readU16 data 25)] ∧
      r.dc_input_current =
        [list_divide_10 (readU16 data 27), list_divide_10 (readU16 data 29),
         list_divide_10 (readU16 data 31)] ∧
      r.ac_output_current =
        [list_divide_10 (readU16 data 33), list_divide_10 (readU16 data 35),
         list_divide_10 (readU16 data 37)] ∧
      r.ac_output_voltage =
        [list_divide_10 (readU16 data 39), list_divide_10 (readU16 data 41),
         list_divide_10 (readU16 data 43)] ∧
      r.ac_output_frequency =
        [get_frequency (readU16 data 45), get_frequency (readU16 data 49),
         get_frequency (readU16 data 53)] ∧
      r.ac_output_power =
        [get_power (readU16 data 47), get_power (readU16 data 51),
         get_power (readU16 data 55)]) := by
  constructor
  · intro v _
    refine ⟨?_, ?_, ?_, ?_, ?_, ?_, ?_, ?_⟩
    · by_cases h : v = 65535 <;> simp [list_divide_10, UINT16_MAX, h]
    · intro h
      simp [list_divide_10, UINT16_MAX, h]
    · by_cases h : v = 65535 <;> simp [get_frequency, UINT16_MAX, h]
    · intro h
      simp [get_frequency, UINT16_MAX, h]
    · by_cases h : v = 65535 <;> simp [get_power, UINT16_MAX, h]
    · intro h
      simp [get_power, UINT16_MAX, h]
    · by_cases h : v = 65326 <;> simp [temperature_to_float, h]
    · intro h
      simp [temperature_to_float, h]
  · intro data r h
    unfold TcpData.parse at h
    split at h
    · simp at h
    · split at h
      · simp at h
      · split at h
        · simp at h
        · simp only [Except.ok.injEq] at h
          subst h
          exact ⟨rfl, rfl, rfl, rfl, rfl, rfl, rfl⟩

/-- Witness for C5: concrete sentinel and non-sentinel raw values, and
the decoder-to-parser link evaluated on the concrete payload `p85`. -/
theorem claim_C5_witness :
    (544 ≤ 65535 ∧ list_divide_10 544 = some ((544 : ℚ) * (1 / 10)) ∧
      get_power 65535 = none ∧ temperature_to_float 65326 = none) ∧
    (TcpData.parse p85 = .ok e85 ∧
      e85.temperature = temperature_to_float (readU16 p85 19)) := by
  have h544 := claim_C5.1 544 (by decide)
  have hmax := claim_C5.1 65535 (by decide)
  have htemp := claim_C5.1 65326 (by decide)
  have hparse : TcpData.parse p85 = .ok e85 := by with_unfolding_all rfl
  exact ⟨⟨by decide, h544.2.1 (by decide), hmax.2.2.2.2.1.mpr rfl,
      htemp.2.2.2.2.2.2.1.mpr rfl⟩,
    ⟨hparse, (claim_C5.2 p85 e85 hparse).1⟩⟩

/-- Claim C6: a mismatch between the two serial-number copies inside a
frame is fatal with the exact message "Serial number mismatch in reply
1 != 2", while a mismatch between the frame's (internally consistent)
serial number and the caller's expected serial number is not fatal —
`parse_messages` still returns the decoded fields for every expected
serial number. -/
theorem claim_C6 :
    parse_messages 3 [0x68, 0, 0x41, 0xF0, 1, 0, 0, 0, 2, 0, 0, 0, 52, 0x16] =
      .error (.packetInvalid "Serial number mismatch in reply 1 != 2") ∧
    ∀ expected : Nat,
      parse_messages expected (mkReplyFrame MESSAGE_TYPE_INFORMATION_REPLY 1 p85) =
        .ok e85 := by
  refine ⟨by decide, fun expected => ?_⟩
  with_unfolding_all rfl

/-- Counterexample to claim C7 as stated: a framing-valid STRING frame
whose payload is the single non-UTF-8 byte 0xC0, followed by a valid
INFORMATION-REPLY frame, does not parse to the reply's fields —
`parse_messages` raises the untyped `UnicodeDecodeError` from the
eagerly evaluated `message.decode("utf8")` in the string branch's log
call; the same buffer without the reply frame fails the same way
instead of reporting the missing information reply. -/
theorem claim_C7_counterexample :
    parse_messages 1 (mkReplyFrame MESSAGE_TYPE_STRING 1 [0xC0] ++
      mkReplyFrame MESSAGE_TYPE_INFORMATION_REPLY 2 p85) = .error .unicodeDecodeError ∧
    parse_messages 1 (mkReplyFrame MESSAGE_TYPE_STRING 1 [0xC0]) =
      .error .unicodeDecodeError ∧
    isPacketInvalid PyErr.unicodeDecodeError = false :=
  ⟨by decide, by decide, rfl⟩

/-- Claim C7 as amended: a buffer holding a framing-valid STRING-type
frame whose payload is valid UTF-8 (the string branch eagerly decodes
the payload for its log line) followed by a valid INFORMATION-REPLY
frame parses to the information reply's decoded fields; a buffer made
of any number of such UTF-8-decodable STRING frames and no information
reply fails with "None of the messages contained an information
reply!". -/
theorem claim_C7_amended :
    (∀ (sn s1 s2 : Nat) (sp p : List Nat) (r : TcpData), s1 < 2 ^ 32 → s2 < 2 ^ 32 →
      isValidUTF8 sp = true →
      parse_information_reply p = .ok r →
      parse_messages sn (mkReplyFrame MESSAGE_TYPE_STRING s1 sp ++
        mkReplyFrame MESSAGE_TYPE_INFORMATION_REPLY s2 p) = .ok r) ∧
    (∀ (sn : Nat) (frames : List (Nat × List Nat)),
      (∀ f ∈ frames, f.1 < 2 ^ 32 ∧ isValidUTF8 f.2 = true) →
      parse_messages sn
        ((frames.map fun f => mkReplyFrame MESSAGE_TYPE_STRING f.1 f.2).flatten) =
        .error (.packetInvalid noReplyMsg)) := by
  have hstr : ∀ (info : Option TcpData) (sp : List Nat), isValidUTF8 sp = true →
      processMessage info MESSAGE_TYPE_STRING sp = .ok info := by
    intro info sp h
    simp [processMessage, MESSAGE_TYPE_STRING, MESSAGE_TYPE_INFORMATION_REPLY,
      decodeUTF8, h]
  have hsingle : ∀ {s : Nat}, s < 2 ^ 32 → ∀ (t : Nat) (p : List Nat)
      (info : Option TcpData) (fuel : Nat), 0 < fuel →
      parseLoop fuel (mkReplyFrame t s p) info =
        match processMessage info t p with
        | .error e => .error e
        | .ok info' => parseLoop 0 [] info' := by
    intro s hs t p info fuel hfuel
    have h := @parseLoop_frame _ hs fuel t p [] info (by simpa using hfuel)
    simpa using h
  constructor
  · intro sn s1 s2 sp p r h1 h2 hsp hr
    have hinfo : processMessage none MESSAGE_TYPE_INFORMATION_REPLY p = .ok (some r) := by
      simp [processMessage, hr]
    unfold parse_messages
    rw [parseLoop_frame h1 MESSAGE_TYPE_STRING sp _ none
      (by simp [List.length_append, mkReplyFrame_length])]
    simp only [hstr _ _ hsp]
    rw [hsingle h2 MESSAGE_TYPE_INFORMATION_REPLY p none _
      (by rw [mkReplyFrame_length]; omega)]
    simp only [hinfo]
    rfl
  · intro sn frames
    induction frames with
    | nil => intro _; rfl
    | cons f fs ih =>
      intro hvalid
      obtain ⟨s, p⟩ := f
      simp only [List.map_cons, List.flatten_cons]
      unfold parse_messages
      rw [parseLoop_frame (hvalid (s, p) (List.mem_cons_self _ _)).1 MESSAGE_TYPE_STRING p _
        none (by simp [List.length_append, mkReplyFrame_length])]
      simp only [hstr _ _ (hvalid (s, p) (List.mem_cons_self _ _)).2]
      exact ih fun g hg => hvalid g (List.mem_cons_of_mem _ hg)

/-- Witness for the amended C7: the two-frame buffer (a STRING frame
with the ASCII payload "foo" then an INFORMATION-REPLY frame) built
over the concrete payload `p85` decodes to `e85`. -/
theorem claim_C7_witness :
    isValidUTF8 [102, 111, 111] = true ∧
    parse_information_reply p85 = .ok e85 ∧
    parse_messages 7 (mkReplyFrame MESSAGE_TYPE_STRING 1 [102, 111, 111] ++
      mkReplyFrame MESSAGE_TYPE_INFORMATION_REPLY 2 p85) = .ok e85 := by
  have hparse : parse_information_reply p85 = .ok e85 := by with_unfolding_all rfl
  exact ⟨by decide, hparse,
    claim_C7_amended.1 7 1 2 [102, 111, 111] p85 e85 (by decide) (by decide) (by decide)
      hparse⟩

/-- `p85` with its first serial-number byte (offset 3) replaced by the
lone continuation byte 0x80, which is not valid UTF-8. -/
def pSerBad : List Nat := p85.set 3 0x80

/-- Counterexample to claim C8 as stated: `pSerBad` is an 85-byte
payload (fixed-field size only, well-formed `inverter_active` = 1), yet
decoding raises — `_TcpData.parse` UTF-8-decodes the serial-number
bytes, and these are invalid, so the untyped `UnicodeDecodeError`
escapes instead of a successful decode. -/
theorem claim_C8_counterexample :
    tcpDataSize ≤ pSerBad.length ∧
    pSerBad.length < tcpDataSize + firmwareStringsSize ∧
    readU16 pSerBad 67 = 1 ∧
    parse_information_reply pSerBad = .error .unicodeDecodeError ∧
    isPacketInvalid PyErr.unicodeDecodeError = false :=
  ⟨by decide, by decide, by decide, by decide, rfl⟩

/-- Claim C8 as amended: an information reply whose payload has only
the fixed-field section (at least `tcpDataSize` bytes but shorter than
`tcpDataSize + firmwareStringsSize`) and is otherwise well-formed
(serial-number bytes valid UTF-8, raw `inverter_active` in {0, 1})
decodes without raising, with `firmware` and `firmware_slave` absent
and every other field decoded by the normal scaling and sentinel
rules. -/
theorem claim_C8_amended (data : List Nat) (h85 : tcpDataSize ≤ data.length)
    (hshort : data.length < tcpDataSize + firmwareStringsSize)
    (hser : isValidUTF8 (cTrunc ((data.drop 3).take 16)) = true)
    (hact : readU16 data 67 = 0 ∨ readU16 data 67 = 1) :
    parse_information_reply data =
      .ok { serial_number := cTrunc ((data.drop 3).take 16)
            temperature := temperature_to_float (readU16 data 19)
            dc_input_voltage :=
              [list_divide_10 (readU16 data 21), list_divide_10 (readU16 data 23),
               list_divide_10 (readU16 data 25)]
            dc_input_current :=
              [list_divide_10 (readU16 data 27), list_divide_10 (readU16 data 29),
               list_divide_10 (readU16 data 31)]
            ac_output_current :=
              [list_divide_10 (readU16 data 33), list_divide_10 (readU16 data 35),
               list_divide_10 (readU16 data 37)]
            ac_output_voltage :=
              [list_divide_10 (readU16 data 39), list_divide_10 (readU16 data 41),
               list_divide_10 (readU16 data 43)]
            ac_output_frequency :=
              [get_frequency (readU16 data 45), get_frequency (readU16 data 49),
               get_frequency (readU16 data 53)]
            ac_output_power :=
              [get_power (readU16 data 47), get_power (readU16 data 51),
               get_power (readU16 data 55)]
            solar_energy_today := (readU16 data 57 : ℚ) * (1 / 100)
            solar_energy_total := (readU32 data 59 : ℚ) * (1 / 10)
            solar_hours_total := readU32 data 63
            inverter_active := decide (readU16 data 67 = 1)
            firmware := none
            firmware_slave := none } := by
  have hb : int_to_bool (readU16 data 67) = .ok (decide (readU16 data 67 = 1)) := by
    rcases hact with h | h <;> rw [h] <;> rfl
  unfold parse_information_reply
  simp only [TcpData_parse_ok data _ h85 hser hb]
  rw [if_neg (Nat.not_le.mpr hshort)]

/-- Witness for the amended C8 at the concrete 85-byte payload `p85`
(ASCII serial number, `inverter_active` = 1). -/
theorem claim_C8_witness :
    (tcpDataSize ≤ p85.length ∧ p85.length < tcpDataSize + firmwareStringsSize ∧
      isValidUTF8 (cTrunc ((p85.drop 3).take 16)) = true ∧
      (readU16 p85 67 = 0 ∨ readU16 p85 67 = 1)) ∧
    parse_information_reply p85 = .ok e85 := by
  refine ⟨⟨by decide, by decide, by decide, Or.inr (by decide)⟩, ?_⟩
  rw [claim_C8_amended p85 (by decide) (by decide) (by decide) (Or.inr (by decide))]
  with_unfolding_all rfl

/-- Counterexample to claim C9 as stated: on the concrete payload
`pBad` (raw `inverter_active` = 2), decoding fails with the untyped
builtin `KeyError` from the `int_to_bool` dict lookup, not with the
codec's typed `OmnikInverterPacketInvalidError`. -/
theorem claim_C9_counterexample :
    parse_information_reply pBad = .error .keyError ∧
    isPacketInvalid PyErr.keyError = false :=
  ⟨by decide, rfl⟩

/-- Claim C9 as amended: raw `inverter_active` 0 and 1 decode to the
booleans `false` and `true`; every other raw value makes the decode
fail, but with the untyped builtin `KeyError` of the `int_to_bool` dict
lookup rather than the codec's typed packet-invalid error.  The
`KeyError` surfaces only when the lookup is reached: the extractor loop
UTF-8-decodes the serial-number bytes first, so an invalid serial makes
the parse fail earlier with the untyped `UnicodeDecodeError`. -/
theorem claim_C9_amended :
    int_to_bool 0 = .ok false ∧
    int_to_bool 1 = .ok true ∧
    (∀ n : Nat, n ≠ 0 → n ≠ 1 →
      int_to_bool n = .error .keyError ∧ isPacketInvalid PyErr.keyError = false) ∧
    (∀ data : List Nat, tcpDataSize ≤ data.length →
      isValidUTF8 (cTrunc ((data.drop 3).take 16)) = true →
      readU16 data 67 ≠ 0 → readU16 data 67 ≠ 1 →
      TcpData.parse data = .error .keyError) ∧
    (∀ data : List Nat, tcpDataSize ≤ data.length →
      isValidUTF8 (cTrunc ((data.drop 3).take 16)) = false →
      TcpData.parse data = .error .unicodeDecodeError) := by
  refine ⟨rfl, rfl, ?_, ?_, ?_⟩
  · intro n h0 h1
    exact ⟨by simp [int_to_bool, h0, h1], rfl⟩
  · intro data hlen hser h0 h1
    unfold TcpData.parse
    rw [if_neg (Nat.not_lt.mpr hlen)]
    simp only [decodeUTF8, hser, if_true]
    rw [show int_to_bool (readU16 data 67) = .error .keyError from by
      simp [int_to_bool, h0, h1]]
  · intro data hlen hser
    unfold TcpData.parse
    rw [if_neg (Nat.not_lt.mpr hlen)]
    simp [decodeUTF8, hser]

/-- Witness for the amended C9: raw value 7 raises `KeyError`; the
concrete payload `pBad` (valid ASCII serial, `inverter_active` = 2)
makes the whole struct parse fail with `KeyError`; and the concrete
payload `pSerBad` (invalid serial bytes) fails earlier with
`UnicodeDecodeError`. -/
theorem claim_C9_witness :
    (int_to_bool 7 = .error .keyError ∧ isPacketInvalid PyErr.keyError = false) ∧
    TcpData.parse pBad = .error .keyError ∧
    TcpData.parse pSerBad = .error .unicodeDecodeError :=
  ⟨claim_C9_amended.2.2.1 7 (by decide) (by decide),
    claim_C9_amended.2.2.2.1 pBad (by decide) (by decide) (by decide) (by decide),
    claim_C9_amended.2.2.2.2 pSerBad (by decide) (by decide)⟩

/-- A buffer whose single frame is complete through its checksum byte
but ends before the trailing end marker 0x16. -/
def noEndBuffer : List Nat := [0x68, 0, 0x41, 0xF0, 1, 0, 0, 0, 1, 0, 0, 0, 51]

/-- Claim C10: `parse_messages` can raise an untyped `IndexError`
instead of the typed packet-invalid error: on the single start-marker
byte `[0x68]` (the stream indexes `data[0]` in an empty buffer) and on
a frame that ends right after its checksum byte (the stream pops the
end marker from an empty buffer). -/
theorem claim_C10 :
    parse_messages 1 [MESSAGE_START] = .error .indexError ∧
    parse_messages 1 noEndBuffer = .error .indexError ∧
    isPacketInvalid PyErr.indexError = false :=
  ⟨by decide, by decide, rfl⟩

end OmnikTcp
